import Mathlib

/-!
Verification of the Cardputer GPS track logger firmware (115200 variant).

The development embeds the firmware's NMEA handling and GPX recording logic:
the GGA field extractor `parseGGA`, the byte-level sentence assembler from the
polling loop, and the recording-session state machine (`createGPX`,
`writeGPXPoint`, `stopRecording`, and the 3-second sampling gate of the loop).
Arduino `String` values are modelled as `List Char`, file contents as `String`,
floating-point quantities as `ℚ`, and the `uint32_t` millisecond clock as `Nat`
with explicit reduction modulo `2 ^ 32`.
-/

/-- Accumulate the value of a leading run of decimal digits, stopping at the
first non-digit (the behaviour of `atol`/`atof` digit scanning). -/
def digitsToNat : List Char → Nat → Nat
  | [], acc => acc
  | c :: cs, acc => if c.isDigit then digitsToNat cs (acc * 10 + (c.toNat - 48)) else acc

/-- Whitespace skipped by `atol`/`atof` before the number. -/
def isSpaceArd (c : Char) : Bool :=
  c == ' ' || c == '\t' || c == '\n' || c == '\r'

/-- Split an optional leading `-`/`+` sign off a character list, returning the
sign as `-1`/`1` together with the remaining characters. -/
def stripSign (s : List Char) : Int × List Char :=
  match s with
  | [] => (1, [])
  | c :: rest =>
    if c = '-' then (-1, rest) else if c = '+' then (1, rest) else (1, c :: rest)

/-- Arduino `String.toInt` (`atol`): skip whitespace, optional sign, then the
leading digit run; a string with no leading digits yields `0`. -/
def toIntArd (s : List Char) : Int :=
  let signed := stripSign (s.dropWhile isSpaceArd)
  signed.1 * (digitsToNat signed.2 0 : Int)

/-- Arduino `String.toFloat` (`atof`) on the decimal fragment actually used by
NMEA fields: skip whitespace, optional sign, integer digits, optional dot and
fraction digits; no digits at all yields `0`. -/
def toFloatArd (s : List Char) : ℚ :=
  let signed := stripSign (s.dropWhile isSpaceArd)
  let ip := signed.2.takeWhile Char.isDigit
  let s3 := signed.2.dropWhile Char.isDigit
  let fp : List Char :=
    match s3 with
    | [] => []
    | c :: rest => if c = '.' then rest.takeWhile Char.isDigit else []
  if ip.isEmpty && fp.isEmpty then 0
  else (signed.1 : ℚ) * ((digitsToNat ip 0 : ℚ) + (digitsToNat fp 0 : ℚ) / (10 : ℚ) ^ fp.length)

/-- The two globals written by `parseGGA`: `fixQuality` and `hdop`. -/
structure FixQuality where
  fixQuality : Int
  hdop : ℚ
deriving DecidableEq, Repr

/-- The scanning loop of `parseGGA`: walk the sentence, and at each `,` or `*`
delimiter take the field text accumulated since the previous delimiter,
increment the field counter, assign `fixQuality` at field 6 and `hdop` at
field 8, and break once the counter exceeds 9. -/
def parseGGALoop : List Char → List Char → Nat → FixQuality → FixQuality
  | [], _, _, q => q
  | c :: rest, tok, field, q =>
    if c = ',' ∨ c = '*' then
      let field1 := field + 1
      let q1 : FixQuality :=
        { fixQuality := if field1 = 6 then toIntArd tok else q.fixQuality
          hdop := if field1 = 8 then toFloatArd tok else q.hdop }
      if field1 > 9 then q1 else parseGGALoop rest [] field1 q1
    else parseGGALoop rest (tok ++ [c]) field q

/-- The firmware's `parseGGA`: both outputs are reset to zero before the
scan, so the previously stored quality (the global state) is ignored. -/
def parseGGA (_prior : FixQuality) (gga : List Char) : FixQuality :=
  parseGGALoop gga [] 0 { fixQuality := 0, hdop := 0 }

/-- Number of `,`/`*` delimiters in a sentence: the firmware's field counter
reaches exactly this value on a full scan. -/
def delimCount (s : List Char) : Nat :=
  (s.filter (fun c => c == ',' || c == '*')).length

/-- The GGA sentence used by the spec's worked example. -/
def ggaExample : List Char :=
  "$GPGGA,123519,4807.038,N,01131.000,E,1,08,0.9,545.4,M,46.9,M,,*47".toList

/-- One step of the byte loop's line reconstruction (the `nmeaLine` static):
a line feed completes the buffered sentence and clears the buffer, a carriage
return is discarded, any other byte is appended to the buffer. -/
def feedChar (buf : List Char) (c : Char) : List Char × Option (List Char) :=
  if c = '\n' then ([], some buf)
  else if c = '\r' then (buf, none)
  else (buf ++ [c], none)

/-- Feed a whole byte sequence one byte at a time, collecting the completed
sentences in order together with the final (incomplete) buffer. -/
def assemble : List Char → List Char → List (List Char) × List Char
  | [], buf => ([], buf)
  | c :: rest, buf =>
    match feedChar buf c with
    | (buf1, some s) =>
      let r := assemble rest buf1
      (s :: r.1, r.2)
    | (buf1, none) => assemble rest buf1

/-- Modelled from the spec: splitting a byte sequence on line-feed bytes
(the segments between consecutive line feeds, with the trailing segment after
the last line feed kept as the final entry). -/
def splitOnLF : List Char → List (List Char)
  | [] => [[]]
  | c :: rest =>
    if c = '\n' then [] :: splitOnLF rest
    else
      match splitOnLF rest with
      | [] => [[c]]
      | seg :: segs => (c :: seg) :: segs

/-- Modelled from the spec: the completed sentences of a byte sequence are the
line-feed-terminated segments, after removing every carriage-return byte; the
text after the final line feed is still incomplete and is not a sentence. -/
def completedSentences (input : List Char) : List (List Char) :=
  (splitOnLF (input.filter (fun c => c ≠ '\r'))).dropLast

/-- A position/fix snapshot as exposed by the TinyGPSPlus object: each field
group carries its own validity flag. -/
structure GpsSnapshot where
  locValid : Bool
  lat : ℚ
  lng : ℚ
  altValid : Bool
  altMeters : ℚ
  speedValid : Bool
  speedKmph : ℚ
  courseValid : Bool
  courseDeg : ℚ
  dateValid : Bool
  year : Nat
  month : Nat
  day : Nat
  timeValid : Bool
  hour : Nat
  minute : Nat
  second : Nat
deriving DecidableEq, Repr

/-- The firmware's mutable globals and loop statics: the recording flag, the
GPX file (validity of the handle and the bytes written to it), the filename,
the GGA-derived quality globals, the sampling timestamp `lastWrite`, and the
line-reassembly statics `nmeaLine` and `lastGGA`. -/
structure SysState where
  isRecording : Bool
  fileOpen : Bool
  fileContent : String
  filename : String
  fixQuality : Int
  hdop : ℚ
  lastWrite : Nat
  nmeaLine : List Char
  lastGGA : List Char
deriving DecidableEq, Repr

/-- State at boot: nothing recording, statics zero-initialised. -/
def initState : SysState :=
  { isRecording := false, fileOpen := false, fileContent := "", filename := ""
    fixQuality := 0, hdop := 0, lastWrite := 0, nmeaLine := [], lastGGA := [] }

/-- Zero-pad a natural number to a given width (the `%0Nd` format). -/
def padNat (w n : Nat) : String :=
  let s := toString n
  String.mk (List.replicate (w - s.length) '0') ++ s

/-- Arduino `Print::print(double, digits)`: sign, then the value plus half of
the last printed decimal place, truncated to integer and fraction digits. -/
def fmtFixed (x : ℚ) (d : Nat) : String :=
  let a := if x < 0 then -x else x
  let y := a + 1 / (2 * (10 : ℚ) ^ d)
  let ip : Nat := y.floor.toNat
  let fr : Nat := ((y - (ip : ℚ)) * (10 : ℚ) ^ d).floor.toNat
  (if x < 0 then "-" else "") ++ toString ip ++
    (if d = 0 then "" else "." ++ padNat d fr)

/-- The `%04d-%02d-%02dT%02d:%02d:%02dZ` UTC timestamp format. -/
def fmtTime (g : GpsSnapshot) : String :=
  padNat 4 g.year ++ "-" ++ padNat 2 g.month ++ "-" ++ padNat 2 g.day ++ "T" ++
    padNat 2 g.hour ++ ":" ++ padNat 2 g.minute ++ ":" ++ padNat 2 g.second ++ "Z"

/-- The three header lines written by `createGPX`. -/
def gpxPreamble : String :=
  "<?xml version='1.0' encoding='UTF-8'?>\n<gpx version='1.1'>\n<trk><trkseg>\n"

/-- The closing line written by `stopRecording`. -/
def gpxClosing : String := "</trkseg></trk></gpx>\n"

/-- The `<time>` line: the timestamp text appears only when both date and time
are valid, but the element itself is always present. -/
def timePart (g : GpsSnapshot) : String :=
  "<time>" ++ (if g.dateValid && g.timeValid then fmtTime g else "") ++ "</time>\n"

/-- The optional `<ele>` line (present only for a valid altitude). -/
def elePart (g : GpsSnapshot) : String :=
  if g.altValid then "<ele>" ++ fmtFixed g.altMeters 2 ++ "</ele>\n" else ""

/-- The optional `<speed>` line (present only for a valid speed). -/
def speedPart (g : GpsSnapshot) : String :=
  if g.speedValid then "<speed>" ++ fmtFixed g.speedKmph 2 ++ "</speed>\n" else ""

/-- The optional `<course>` line (present only for a valid course). -/
def coursePart (g : GpsSnapshot) : String :=
  if g.courseValid then "<course>" ++ fmtFixed g.courseDeg 2 ++ "</course>\n" else ""

/-- The optional `<hdop>` line: written only when the stored `hdop` global is
strictly positive. -/
def hdopPart (h : ℚ) : String :=
  if 0 < h then "<hdop>" ++ fmtFixed h 1 ++ "</hdop>\n" else ""

/-- The full `<trkpt>` element exactly as `writeGPXPoint` prints it. Note the
stored `fixQuality` global is never consulted here. -/
def trkptElement (g : GpsSnapshot) (h : ℚ) : String :=
  "<trkpt lat=\"" ++ fmtFixed g.lat 6 ++ "\" lon=\"" ++ fmtFixed g.lng 6 ++ "\">\n" ++
    timePart g ++ elePart g ++ speedPart g ++ coursePart g ++ hdopPart h ++ "</trkpt>\n"

/-- Outcome of a `createGPX` call, distinguishing its three branches. -/
inductive StartResult
  | Started
  | AlreadyActive
  | OpenFailed
deriving DecidableEq, Repr

/-- The `/track_<Y>-<M>-<D>_<epochSeconds>.gpx` (or, without a valid date,
`/track_<epochSeconds>.gpx`) filename derivation of `createGPX`. -/
def trackFilename (g : GpsSnapshot) (nowMs : Nat) : String :=
  "/track_" ++
    (if g.dateValid then
      toString g.year ++ "-" ++ toString g.month ++ "-" ++ toString g.day ++ "_"
    else "") ++
    toString (nowMs / 1000) ++ ".gpx"

/-- Start of recording (`createGPX`): a no-op while recording; otherwise derive the filename, open
the file (`openOk` tells whether `SD.open` yields a valid handle), and on
success write the preamble and set the recording flag. -/
def createGPX (st : SysState) (g : GpsSnapshot) (nowMs : Nat) (openOk : Bool) :
    SysState × StartResult :=
  if st.isRecording then (st, .AlreadyActive)
  else
    let fn := trackFilename g nowMs
    if openOk then
      ({ st with filename := fn, fileOpen := true, fileContent := gpxPreamble,
                 isRecording := true }, .Started)
    else
      ({ st with filename := fn, fileOpen := false }, .OpenFailed)

/-- Point append (`writeGPXPoint`): returns unchanged unless recording with a usable handle
and a valid location; otherwise prints one `<trkpt>` element and flushes.
`writeOk` models whether the storage medium accepted the bytes — the firmware
never inspects any write result, so no other field can depend on it. -/
def writeGPXPoint (st : SysState) (g : GpsSnapshot) (writeOk : Bool) : SysState :=
  if !st.isRecording || !st.fileOpen then st
  else if !g.locValid then st
  else { st with
          fileContent := st.fileContent ++ (if writeOk then trkptElement g st.hdop else "") }

/-- End of recording (`stopRecording`): when recording with a usable handle, append the closing
tags, close the file and clear the recording flag; otherwise a no-op. -/
def stopRecording (st : SysState) : SysState :=
  if st.isRecording && st.fileOpen then
    { st with fileContent := st.fileContent ++ gpxClosing, fileOpen := false,
              isRecording := false }
  else st

/-- The `uint32_t` difference `a - b` as computed by C on the millisecond clock. -/
def u32sub (a b : Nat) : Nat :=
  (a % 2 ^ 32 + 2 ^ 32 - b % 2 ^ 32) % 2 ^ 32

/-- The sampling gate of the polling loop: when recording and more than
3000 ms have elapsed since `lastWrite`, call `writeGPXPoint` and then set
`lastWrite` to the current time — unconditionally, even if no point was
emitted. -/
def loopSample (st : SysState) (g : GpsSnapshot) (nowMs : Nat) (writeOk : Bool) :
    SysState :=
  if st.isRecording && decide (u32sub nowMs st.lastWrite > 3000) then
    let st1 := writeGPXPoint st g writeOk
    { st1 with lastWrite := nowMs }
  else st

/-- The loop's talker-ID filter: the GGA extractor runs exactly on sentences
starting with `$GPGGA` or `$GNGGA`. -/
def isGGASentence (line : List Char) : Bool :=
  "$GPGGA".toList.isPrefixOf line || "$GNGGA".toList.isPrefixOf line

/-- Handling of one completed sentence in the byte loop: on a GGA talker
match, remember it in `lastGGA` and run `parseGGA` into the quality globals;
any other sentence leaves the state untouched. -/
def handleSentence (st : SysState) (line : List Char) : SysState :=
  if isGGASentence line then
    let q := parseGGA { fixQuality := st.fixQuality, hdop := st.hdop } line
    { st with lastGGA := line, fixQuality := q.fixQuality, hdop := q.hdop }
  else st

/-- A snapshot with no valid field at all (receiver without a fix). -/
def noFixSnap : GpsSnapshot :=
  { locValid := false, lat := 0, lng := 0, altValid := false, altMeters := 0
    speedValid := false, speedKmph := 0, courseValid := false, courseDeg := 0
    dateValid := false, year := 0, month := 0, day := 0
    timeValid := false, hour := 0, minute := 0, second := 0 }

/-- A snapshot with a valid location only. -/
def validSnap : GpsSnapshot := { noFixSnap with locValid := true, lat := 12, lng := 47 }

/-- A second valid-location snapshot. -/
def validSnap2 : GpsSnapshot := { noFixSnap with locValid := true, lat := 13, lng := 48 }

/-- A concrete Active session state with the preamble already written. -/
def activeSt : SysState :=
  { initState with isRecording := true, fileOpen := true, fileContent := gpxPreamble,
                   filename := "/track_1.gpx" }

/-- Session 1: started at 5000 ms. -/
def traceStarted : SysState := (createGPX initState noFixSnap 5000 true).1

/-- Session 1 wrote its point at 10000 ms. -/
def traceWrote : SysState := loopSample traceStarted validSnap 10000 true

/-- Session 1 stopped. -/
def traceStopped : SysState := stopRecording traceWrote

/-- Session 2: started at 10500 ms — a fresh Idle→Active transition. -/
def traceRestarted : SysState := (createGPX traceStopped noFixSnap 10500 true).1

lemma splitOnLF_ne_nil (s : List Char) : splitOnLF s ≠ [] := by
  cases s with
  | nil => simp [splitOnLF]
  | cons c rest =>
    simp only [splitOnLF]
    split
    · simp
    · split <;> simp

lemma splitOnLF_no_lf (s : List Char) (h : '\n' ∉ s) : splitOnLF s = [s] := by
  induction s with
  | nil => rfl
  | cons c rest ih =>
    have hc : c ≠ '\n' := fun e => h (e ▸ List.mem_cons_self c rest)
    have hr : '\n' ∉ rest := fun m => h (List.mem_cons_of_mem _ m)
    simp [splitOnLF, hc, ih hr]

lemma splitOnLF_append_lf (b t : List Char) (h : '\n' ∉ b) :
    splitOnLF (b ++ '\n' :: t) = b :: splitOnLF t := by
  induction b with
  | nil => simp [splitOnLF]
  | cons c b' ih =>
    have hc : c ≠ '\n' := fun e => h (e ▸ List.mem_cons_self c b')
    have hb : '\n' ∉ b' := fun m => h (List.mem_cons_of_mem _ m)
    simp [splitOnLF, hc, ih hb]

lemma assemble_eq (input : List Char) : ∀ buf : List Char, '\n' ∉ buf →
    assemble input buf =
      ((splitOnLF (buf ++ input.filter (fun c => c ≠ '\r'))).dropLast,
       (splitOnLF (buf ++ input.filter (fun c => c ≠ '\r'))).getLastD []) := by
  induction input with
  | nil =>
    intro buf hb
    simp [assemble, splitOnLF_no_lf buf hb]
  | cons c rest ih =>
    intro buf hb
    by_cases hc : c = '\n'
    · subst hc
      have h1 := ih [] (by simp)
      simp only [List.nil_append] at h1
      have step : assemble ('\n' :: rest) buf
          = (buf :: (assemble rest []).1, (assemble rest []).2) := by
        simp [assemble, feedChar]
      have hfc : List.filter (fun c => decide (c ≠ '\r')) ('\n' :: rest)
          = '\n' :: List.filter (fun c => decide (c ≠ '\r')) rest := by
        simp [List.filter_cons]
      rw [step, h1, hfc, splitOnLF_append_lf buf _ hb]
      cases hS : splitOnLF (List.filter (fun c => decide (c ≠ '\r')) rest) with
      | nil => exact absurd hS (splitOnLF_ne_nil _)
      | cons x xs => simp [List.getLastD_cons, List.dropLast]
    · by_cases hr : c = '\r'
      · subst hr
        have step : assemble ('\r' :: rest) buf = assemble rest buf := by
          simp [assemble, feedChar]
        rw [step, ih buf hb]
        simp
      · have step : assemble (c :: rest) buf = assemble rest (buf ++ [c]) := by
          simp [assemble, feedChar, hc, hr]
        have hb' : '\n' ∉ buf ++ [c] := by
          intro m
          rcases List.mem_append.mp m with m1 | m1
          · exact hb m1
          · simp at m1; exact hc m1.symm
        rw [step, ih (buf ++ [c]) hb']
        simp [List.filter_cons, hr, List.append_assoc]

/-- C1: a run start (succeeding) → appendPoint (valid) → appendPoint (valid)
→ stop leaves the file holding the three-line preamble, then exactly the two
trkpt elements, then the closing line. -/
theorem full_cycle_two_trkpt (st : SysState) (g0 g1 g2 : GpsSnapshot) (t0 : Nat)
    (hIdle : st.isRecording = false)
    (h1 : g1.locValid = true) (h2 : g2.locValid = true) :
    (stopRecording (writeGPXPoint
        (writeGPXPoint (createGPX st g0 t0 true).1 g1 true) g2 true)).fileContent
      = gpxPreamble ++ trkptElement g1 st.hdop ++ trkptElement g2 st.hdop ++ gpxClosing := by
  simp [createGPX, writeGPXPoint, stopRecording, hIdle, h1, h2]

/-- Witness for C1 at a concrete idle state and two concrete valid fixes. -/
theorem full_cycle_two_trkpt_witness :
    (stopRecording (writeGPXPoint
        (writeGPXPoint (createGPX initState noFixSnap 0 true).1 validSnap true)
        validSnap2 true)).fileContent
      = gpxPreamble ++ trkptElement validSnap 0 ++ trkptElement validSnap2 0 ++ gpxClosing :=
  full_cycle_two_trkpt initState noFixSnap validSnap validSnap2 0 rfl rfl rfl

/-- C4 counterexample: an appendPoint whose write fails while the session is
Active leaves the session Active, not Idle — the firmware never observes
write results. -/
theorem write_failure_stays_active_cex :
    ¬ ((writeGPXPoint activeSt validSnap false).isRecording = false) := by
  with_unfolding_all decide

/-- C4 amended: appendPoint never changes the recording flag, the handle or
the sample clock, whatever the write outcome; a fatal write failure therefore
leaves the session Active rather than transitioning it to Idle. -/
theorem appendPoint_preserves_session_flags (st : SysState) (g : GpsSnapshot)
    (wok : Bool) :
    (writeGPXPoint st g wok).isRecording = st.isRecording ∧
    (writeGPXPoint st g wok).fileOpen = st.fileOpen ∧
    (writeGPXPoint st g wok).lastWrite = st.lastWrite := by
  unfold writeGPXPoint
  split
  · exact ⟨rfl, rfl, rfl⟩
  · split
    · exact ⟨rfl, rfl, rfl⟩
    · exact ⟨rfl, rfl, rfl⟩

/-- C5 counterexample: an Active cycle whose snapshot has no valid location
still advances the sample clock: `lastWrite` moves from 0 to the current
time even though no trkpt was written. -/
theorem skipped_point_advances_clock_cex :
    ¬ ((loopSample activeSt noFixSnap 4000 true).lastWrite = activeSt.lastWrite) := by
  with_unfolding_all decide

/-- C5 amended: with the session Active and an invalid-location snapshot, an
elapsed sampling window writes no trkpt element but still sets `lastWrite`
to the current time, pushing the next emission window back. -/
theorem invalid_location_no_write_clock_advances (st : SysState)
    (g : GpsSnapshot) (now : Nat) (wok : Bool)
    (hRec : st.isRecording = true) (hLoc : g.locValid = false)
    (hWin : u32sub now st.lastWrite > 3000) :
    (loopSample st g now wok).fileContent = st.fileContent ∧
    (loopSample st g now wok).lastWrite = now := by
  simp [loopSample, writeGPXPoint, hRec, hLoc, hWin, ite_self]

/-- Witness for the amended C5 at a concrete Active state. -/
theorem invalid_location_no_write_clock_advances_witness :
    (loopSample activeSt noFixSnap 4000 true).fileContent = activeSt.fileContent ∧
    (loopSample activeSt noFixSnap 4000 true).lastWrite = 4000 :=
  invalid_location_no_write_clock_advances activeSt noFixSnap 4000 true rfl rfl
    (by decide)

/-- C7 counterexample: on the second Idle→Active transition the sample clock
still holds the previous session's emission time (10000), and a
valid-location cycle at 11000 ms writes nothing: the new session's first
point is delayed by the previous session's window instead of being writable
immediately. -/
theorem clock_not_reset_on_restart_cex :
    traceRestarted.isRecording = true ∧
    traceRestarted.lastWrite = 10000 ∧
    (loopSample traceRestarted validSnap 11000 true).fileContent
      = traceRestarted.fileContent := by
  with_unfolding_all decide

/-- C7 amended: the sample clock is a static initialised to 0 at boot and the
Idle→Active transition never touches it, so it persists across sessions; a
new session's first point waits for the 3000 ms window measured from the
previous session's last emission (or from boot). -/
theorem createGPX_preserves_lastWrite (st : SysState) (g : GpsSnapshot)
    (t : Nat) (ok : Bool) :
    (createGPX st g t ok).1.lastWrite = st.lastWrite ∧ initState.lastWrite = 0 := by
  refine ⟨?_, rfl⟩
  unfold createGPX
  split
  · rfl
  · split <;> rfl

/-- C8: a start while already Active is a no-op returning AlreadyActive: the
second of two consecutive starts opens nothing, writes nothing, and returns
the state of the first start unchanged, which still has exactly the one open
file holding one preamble. -/
theorem second_start_noop (st : SysState) (g g2 : GpsSnapshot) (t t2 : Nat)
    (ok2 : Bool) (hIdle : st.isRecording = false) :
    (createGPX st g t true).2 = StartResult.Started ∧
    (createGPX st g t true).1.isRecording = true ∧
    (createGPX st g t true).1.fileOpen = true ∧
    (createGPX st g t true).1.fileContent = gpxPreamble ∧
    createGPX (createGPX st g t true).1 g2 t2 ok2
      = ((createGPX st g t true).1, StartResult.AlreadyActive) := by
  simp [createGPX, hIdle]

/-- Witness for C8 from the boot state. -/
theorem second_start_noop_witness :
    (createGPX initState noFixSnap 0 true).2 = StartResult.Started ∧
    (createGPX initState noFixSnap 0 true).1.isRecording = true ∧
    (createGPX initState noFixSnap 0 true).1.fileOpen = true ∧
    (createGPX initState noFixSnap 0 true).1.fileContent = gpxPreamble ∧
    createGPX (createGPX initState noFixSnap 0 true).1 validSnap 99999 false
      = ((createGPX initState noFixSnap 0 true).1, StartResult.AlreadyActive) :=
  second_start_noop initState noFixSnap validSnap 0 99999 false rfl

/-- C9: a completed sentence is handed to the GGA extractor exactly when it
starts with the `$GPGGA` or `$GNGGA` talker prefixes; on a match the quality
globals take the extractor's output, and any other sentence leaves the state
untouched. -/
theorem gga_dispatch_iff_talker_match (st : SysState) (line : List Char) :
    (isGGASentence line
      = ("$GPGGA".toList.isPrefixOf line || "$GNGGA".toList.isPrefixOf line)) ∧
    (isGGASentence line = true →
      handleSentence st line
        = { st with lastGGA := line,
                    fixQuality := (parseGGA { fixQuality := st.fixQuality,
                                              hdop := st.hdop } line).fixQuality,
                    hdop := (parseGGA { fixQuality := st.fixQuality,
                                        hdop := st.hdop } line).hdop }) ∧
    (isGGASentence line = false → handleSentence st line = st) := by
  refine ⟨rfl, ?_, ?_⟩ <;> intro h <;> simp [handleSentence, h]

/-- Witness for C9: a `$GPRMC` sentence leaves the state unchanged, while the
example `$GPGGA` sentence updates the hdop global. -/
theorem gga_dispatch_iff_talker_match_witness :
    handleSentence initState ("$GPRMC,123519,A".toList) = initState ∧
    (handleSentence initState ggaExample).hdop = 8 := by
  refine ⟨(gga_dispatch_iff_talker_match initState _).2.2 (by decide), ?_⟩
  rw [(gga_dispatch_iff_talker_match initState ggaExample).2.1 (by decide)]
  with_unfolding_all decide

lemma trkptElement_length_pos (g : GpsSnapshot) (h : ℚ) :
    0 < (trkptElement g h).length := by
  have h12 : ("<trkpt lat=\"").length = 12 := rfl
  simp [trkptElement, String.length_append]
  omega

/-- C10: while Active with an open file, an append with a valid location
always writes the (nonempty) trkpt element, whatever the stored quality
values; a zero hdop only makes the optional hdop child line empty, it never
suppresses the point itself. -/
theorem valid_location_always_written (st : SysState) (g : GpsSnapshot)
    (hRec : st.isRecording = true) (hOpen : st.fileOpen = true)
    (hLoc : g.locValid = true) :
    (writeGPXPoint st g true).fileContent = st.fileContent ++ trkptElement g st.hdop ∧
    0 < (trkptElement g st.hdop).length ∧
    (st.hdop = 0 → hdopPart st.hdop = "") := by
  refine ⟨?_, trkptElement_length_pos g st.hdop, ?_⟩
  · simp [writeGPXPoint, hRec, hOpen, hLoc]
  · intro h0
    simp [hdopPart, h0]

/-- Witness for C10 at a concrete Active state whose quality globals are both
zero. -/
theorem valid_location_always_written_witness :
    (writeGPXPoint activeSt validSnap true).fileContent
        = activeSt.fileContent ++ trkptElement validSnap 0 ∧
    0 < (trkptElement validSnap (0 : ℚ)).length ∧
    ((0 : ℚ) = 0 → hdopPart 0 = "") :=
  valid_location_always_written activeSt validSnap rfl rfl rfl

lemma parseGGALoop_short : ∀ (s tok : List Char) (field : Nat) (q : FixQuality),
    field + delimCount s < 6 → parseGGALoop s tok field q = q := by
  intro s
  induction s with
  | nil => intro tok field q _; rfl
  | cons c rest ih =>
    intro tok field q h
    by_cases hc : c = ',' ∨ c = '*'
    · have hdc : delimCount (c :: rest) = delimCount rest + 1 := by
        have hcc : (c == ',' || c == '*') = true := by
          rcases hc with h1 | h1 <;> simp [h1]
        simp [delimCount, List.filter_cons, hcc]
      rw [hdc] at h
      have h6 : ¬ (field + 1 = 6) := by omega
      have h8 : ¬ (field + 1 = 8) := by omega
      have h9 : ¬ (field + 1 > 9) := by omega
      simp only [parseGGALoop, if_pos hc, if_neg h6, if_neg h8, if_neg h9]
      exact ih [] (field + 1) q (by omega)
    · push_neg at hc
      have hdc : delimCount (c :: rest) = delimCount rest := by
        simp [delimCount, List.filter_cons, hc.1, hc.2]
      simp only [parseGGALoop, if_neg (not_or.mpr hc)]
      exact ih (tok ++ [c]) field q (by omega)

/-- C3: the GGA extractor resets both outputs before scanning, so its result
never depends on the previously stored quality, and any sentence with fewer
than six comma/asterisk delimiters yields fixQuality 0 and hdop 0. -/
theorem parseGGA_short_sentence_zero (q q' : FixQuality) (s : List Char)
    (h : delimCount s < 6) :
    parseGGA q s = { fixQuality := 0, hdop := 0 } ∧ parseGGA q s = parseGGA q' s := by
  refine ⟨?_, rfl⟩
  exact parseGGALoop_short s [] 0 _ (by omega)

/-- Witness for C3 on the concrete truncated sentence `$GPGGA,051,`. -/
theorem parseGGA_short_sentence_zero_witness :
    delimCount ("$GPGGA,051,".toList) < 6 ∧
      parseGGA { fixQuality := 7, hdop := 3 } ("$GPGGA,051,".toList)
        = { fixQuality := 0, hdop := 0 } := by
  refine ⟨by decide, ?_⟩
  exact (parseGGA_short_sentence_zero { fixQuality := 7, hdop := 3 }
    { fixQuality := 1, hdop := 1 } _ (by decide)).1

/-- C2 (evaluating the code at the failing input): on the spec's example GGA
sentence the extractor returns fixQuality 0 and hdop 8, not the claimed
fixQuality 1 and hdop 0.9 — the scan counts the `$GPGGA` talker token as
field 1, so its field 6 is the E/W indicator (`E`, parsed as 0) and its
field 8 is the satellite count (`08`, parsed as 8.0). -/
theorem gga_example_parse_eval :
    parseGGA { fixQuality := 0, hdop := 0 } ggaExample
        = { fixQuality := 0, hdop := 8 } ∧
      parseGGA { fixQuality := 0, hdop := 0 } ggaExample
        ≠ { fixQuality := 1, hdop := 9/10 } := by
  with_unfolding_all decide

/-- C6: feeding any byte sequence one byte at a time to the sentence
assembler returns exactly the line-feed-terminated segments of the input, in
order with none duplicated or dropped, with carriage-return bytes removed. -/
theorem assembler_matches_lf_split (input : List Char) :
    (assemble input []).1 = completedSentences input := by
  have h := assemble_eq input [] (by simp)
  simp only [List.nil_append] at h
  rw [completedSentences, h]
